import Mathlib

/-!
Shallow embedding of the `tiny_bail` crate (src/lib.rs).

The crate provides bailing macros: unwrap a fallible value; on failure,
perform a local exit (return / continue / break), optionally logging.

Embedding choices:
* Rust `Result<T, E>` is `RResult T E`; `Option<T>` is Lean `Option T`;
  `bool` is `Bool`; `()` is `Unit`.
* The `IntoResult` trait (src/lib.rs:223-244) is a Lean class with the
  three instances translated from the source impls.
* A macro expansion such as `__unwrap_or!($expr, $else)` is a function:
  the spliced exit action `$else` becomes an explicit exit value of type
  `X` (the return value for `return`-exits, a `LoopExit` for
  `continue`/`break`-exits), and the expansion's result is a
  `BailOutcome T X` (either the unwrapped success value, letting
  execution continue past the call site, or the exit) paired with the
  list of log records emitted by this invocation.
* `__log_bail!($expr, __err)` bakes the call site (file, line, column,
  expression text) into a function `mkLog : E → LogRecord` rendering the
  error; the quiet expansion never receives such a function, mirroring
  the source where the `_` match arm does not even bind the error.
* The `log_once` variants' per-call-site `static AtomicBool` latch is
  threaded explicitly: the expansion takes the latch value and returns
  the new one (`swap(false)` on the failure arm).
* Enclosing control flow is interpreted by explicit runners:
  `routine_result` runs a routine whose body is one return-exit call
  site followed by the rest of the body, and `run_outer`/`run_inner`
  interpret the two nested counting loops of the test suite
  (src/lib.rs:720-775).
-/

namespace TinyBail

/-- Rust's `Result<T, E>`. -/
inductive RResult (T E : Type) where
  | ok : T → RResult T E
  | err : E → RResult T E
deriving DecidableEq, Repr

/-- Rust's `Option::ok_or`: `Some(x) => Ok(x)`, `None => Err(e)`. -/
def okOr {T E : Type} (o : Option T) (e : E) : RResult T E :=
  match o with
  | some x => RResult.ok x
  | none => RResult.err e

/-- Rust's `bool::then_some`: `if self { Some(x) } else { None }`. -/
def thenSome {T : Type} (b : Bool) (x : T) : Option T :=
  if b then some x else none

/-- Rust's `Result::ok()` projection: `Ok(x) => Some(x)`, `Err(_) => None`. -/
def okProj {T E : Type} : RResult T E → Option T
  | RResult.ok x => some x
  | RResult.err _ => none

/-- `true` iff the result is an `Err`. -/
def isErr {T E : Type} : RResult T E → Bool
  | RResult.ok _ => false
  | RResult.err _ => true

/-- The `IntoResult<T, E>` trait (src/lib.rs:223-226): separate a value into
success and failure, as a `Result`. -/
class IntoResult (S : Type) (T E : outParam Type) where
  into_result : S → RResult T E

export IntoResult (into_result)

/-- `impl IntoResult<bool, bool> for bool` (src/lib.rs:228-232):
`self.then_some(true).ok_or(false)`. -/
instance : IntoResult Bool Bool Bool where
  into_result b := okOr (thenSome b true) false

/-- `impl<T> IntoResult<T, Option<()>> for Option<T>` (src/lib.rs:234-238):
`self.ok_or(None)`. -/
instance {T : Type} : IntoResult (Option T) T (Option Unit) where
  into_result o := okOr o none

/-- `impl<T, E> IntoResult<T, E> for Result<T, E>` (src/lib.rs:240-244):
the identity. -/
instance {T E : Type} : IntoResult (RResult T E) T E where
  into_result r := r

/-- One diagnostic line emitted by `__log_bail!` (src/lib.rs:182-193):
`"Bailed at {file}:{line}:{column}: `{expr}` is `{err:?}`"`. -/
structure LogRecord where
  file : String
  line : Nat
  column : Nat
  exprText : String
  errDebug : String
deriving DecidableEq, Repr

/-- The result of one bail-macro call site: either the unwrapped success
value (execution continues past the call site) or the spliced exit. -/
inductive BailOutcome (T X : Type) where
  | value : T → BailOutcome T X
  | exit : X → BailOutcome T X
deriving DecidableEq, Repr

/-- `__unwrap_or!($expr, $else)` (src/lib.rs:249-259): match
`into_result($expr)`; on `Ok(x)` yield `x`; on `Err(__err)` log via
`__log_bail!` and perform `$else`. -/
def unwrap_or {S T E X : Type} [IntoResult S T E]
    (mkLog : E → LogRecord) (expr : S) (els : X) :
    BailOutcome T X × List LogRecord :=
  match into_result expr with
  | RResult.ok x => (BailOutcome.value x, [])
  | RResult.err e => (BailOutcome.exit els, [mkLog e])

/-- `__unwrap_or_quiet!($expr, $else)` (src/lib.rs:306-315): match
`into_result($expr)`; on `Ok(x)` yield `x`; otherwise (the `_` arm, not
binding the error) perform `$else` with no log. -/
def unwrap_or_quiet {S T E X : Type} [IntoResult S T E]
    (expr : S) (els : X) :
    BailOutcome T X × List LogRecord :=
  match into_result expr with
  | RResult.ok x => (BailOutcome.value x, [])
  | _ => (BailOutcome.exit els, [])

/-- `__unwrap_or_log_once!($expr, $else)` (src/lib.rs:362-376): like
`__unwrap_or!` but the failure arm does
`if __SHOULD_LOG.swap(false, Relaxed) { __log_bail!(...) }` on a
per-call-site `static AtomicBool` latch initialized to `true`. The latch
is threaded explicitly: input `shouldLog`, output the new latch value. -/
def unwrap_or_log_once {S T E X : Type} [IntoResult S T E]
    (mkLog : E → LogRecord) (shouldLog : Bool) (expr : S) (els : X) :
    (BailOutcome T X × List LogRecord) × Bool :=
  match into_result expr with
  | RResult.ok x => ((BailOutcome.value x, []), shouldLog)
  | RResult.err e =>
      ((BailOutcome.exit els, if shouldLog then [mkLog e] else []), false)

/-- Exit target of a loop-exit macro: `continue`/`break`, optionally labeled
(src/lib.rs:279-301). -/
inductive LoopExit where
  | cont : Option String → LoopExit
  | brk : Option String → LoopExit
deriving DecidableEq, Repr

/-- `or_return!($return, $expr)` (src/lib.rs:265-268):
`__unwrap_or!($expr, return $return)`. -/
def or_return {S T E R : Type} [IntoResult S T E]
    (mkLog : E → LogRecord) (ret : R) (expr : S) :
    BailOutcome T R × List LogRecord :=
  unwrap_or mkLog expr ret

/-- `or_return!($expr)` (src/lib.rs:270-272):
`__unwrap_or!($expr, return Default::default())`; `Default::default()` is
modelled by `Inhabited.default`. -/
def or_return_default {S T E R : Type} [IntoResult S T E] [Inhabited R]
    (mkLog : E → LogRecord) (expr : S) :
    BailOutcome T R × List LogRecord :=
  unwrap_or mkLog expr (default : R)

/-- `or_return_quiet!($return, $expr)` (src/lib.rs:321-324). -/
def or_return_quiet {S T E R : Type} [IntoResult S T E]
    (ret : R) (expr : S) :
    BailOutcome T R × List LogRecord :=
  unwrap_or_quiet expr ret

/-- `or_return_quiet!($expr)` (src/lib.rs:326-328). -/
def or_return_quiet_default {S T E R : Type} [IntoResult S T E] [Inhabited R]
    (expr : S) :
    BailOutcome T R × List LogRecord :=
  unwrap_or_quiet expr (default : R)

/-- `or_return_log_once!($return, $expr)` (src/lib.rs:383-385). -/
def or_return_log_once {S T E R : Type} [IntoResult S T E]
    (mkLog : E → LogRecord) (shouldLog : Bool) (ret : R) (expr : S) :
    (BailOutcome T R × List LogRecord) × Bool :=
  unwrap_or_log_once mkLog shouldLog expr ret

/-- `or_return_log_once!($expr)` (src/lib.rs:387-389). -/
def or_return_log_once_default {S T E R : Type} [IntoResult S T E] [Inhabited R]
    (mkLog : E → LogRecord) (shouldLog : Bool) (expr : S) :
    (BailOutcome T R × List LogRecord) × Bool :=
  unwrap_or_log_once mkLog shouldLog expr (default : R)

/-- `or_continue!([$label,] $expr)` (src/lib.rs:279-287):
`__unwrap_or!($expr, continue [$label])`. -/
def or_continue {S T E : Type} [IntoResult S T E]
    (mkLog : E → LogRecord) (lbl : Option String) (expr : S) :
    BailOutcome T LoopExit × List LogRecord :=
  unwrap_or mkLog expr (LoopExit.cont lbl)

/-- `or_continue_quiet!([$label,] $expr)` (src/lib.rs:335-343). -/
def or_continue_quiet {S T E : Type} [IntoResult S T E]
    (lbl : Option String) (expr : S) :
    BailOutcome T LoopExit × List LogRecord :=
  unwrap_or_quiet expr (LoopExit.cont lbl)

/-- `or_continue_log_once!([$label,] $expr)` (src/lib.rs:396-404). -/
def or_continue_log_once {S T E : Type} [IntoResult S T E]
    (mkLog : E → LogRecord) (shouldLog : Bool) (lbl : Option String) (expr : S) :
    (BailOutcome T LoopExit × List LogRecord) × Bool :=
  unwrap_or_log_once mkLog shouldLog expr (LoopExit.cont lbl)

/-- `or_break!([$label,] $expr)` (src/lib.rs:293-301):
`__unwrap_or!($expr, break [$label])`. -/
def or_break {S T E : Type} [IntoResult S T E]
    (mkLog : E → LogRecord) (lbl : Option String) (expr : S) :
    BailOutcome T LoopExit × List LogRecord :=
  unwrap_or mkLog expr (LoopExit.brk lbl)

/-- `or_break_quiet!([$label,] $expr)` (src/lib.rs:349-357). -/
def or_break_quiet {S T E : Type} [IntoResult S T E]
    (lbl : Option String) (expr : S) :
    BailOutcome T LoopExit × List LogRecord :=
  unwrap_or_quiet expr (LoopExit.brk lbl)

/-- `or_break_log_once!([$label,] $expr)` (src/lib.rs:410-418). -/
def or_break_log_once {S T E : Type} [IntoResult S T E]
    (mkLog : E → LogRecord) (shouldLog : Bool) (lbl : Option String) (expr : S) :
    (BailOutcome T LoopExit × List LogRecord) × Bool :=
  unwrap_or_log_once mkLog shouldLog expr (LoopExit.brk lbl)

/-- Run a routine whose body is one return-exit call site followed by the
rest of the body: the spliced `return r` makes the routine's result `r`;
a success value `t` flows into the rest of the body. -/
def routine_result {T R : Type}
    (o : BailOutcome T R × List LogRecord) (rest : T → R) : R :=
  match o.1 with
  | BailOutcome.value t => rest t
  | BailOutcome.exit r => r

/-- What the inner (unlabeled) loop of the nested-loop tests does with one
body result: fall through to the code after the inner loop, or transfer
control to the outer loop labeled `'_a` (src/lib.rs:720-775). -/
inductive InnerOut where
  | fallthrough : InnerOut
  | contOuter : InnerOut
  | brkOuter : InnerOut
deriving DecidableEq, Repr

/-- The inner loop `for _ in 0..2 { val += 1; assert_eq!(m, inner); val += 1 }`
of the `b`/`b_with_label` tests (src/lib.rs:725-729), with `m` the bail-macro
outcome (constant across iterations since the checked expression is the
constant `outer`), run with `n` iterations remaining. An unlabeled
`continue`/`break` targets this loop; a labeled one targets the outer loop,
the only labeled loop in scope. -/
def run_inner {T : Type} (m : BailOutcome T LoopExit) : Nat → Int → Int × InnerOut
  | 0, val => (val, InnerOut.fallthrough)
  | Nat.succ n, val =>
    let val2 := val + 1
    match m with
    | BailOutcome.value _ => run_inner m n (val2 + 1)
    | BailOutcome.exit (LoopExit.cont none) => run_inner m n val2
    | BailOutcome.exit (LoopExit.brk none) => (val2, InnerOut.fallthrough)
    | BailOutcome.exit (LoopExit.cont (some _)) => (val2, InnerOut.contOuter)
    | BailOutcome.exit (LoopExit.brk (some _)) => (val2, InnerOut.brkOuter)

/-- The outer loop `'_a: for _ in 0..2 { val += 1; <inner loop>; val += 1 }`
of the `b`/`b_with_label` tests (src/lib.rs:723-731), run with `n` iterations
remaining. -/
def run_outer {T : Type} (m : BailOutcome T LoopExit) : Nat → Int → Int
  | 0, val => val
  | Nat.succ n, val =>
    let r := run_inner m 2 (val + 1)
    match r.2 with
    | InnerOut.fallthrough => run_outer m n (r.1 + 1)
    | InnerOut.contOuter => run_outer m n r.1
    | InnerOut.brkOuter => r.1

/-- The whole counting function of tests `b` (with `lbl = none`) and
`b_with_label` (with `lbl = some "_a"`): `val = 0`, two nested loops each
iterating twice around an `or_break!` call site (src/lib.rs:720-775). -/
def b_program {S T E : Type} [IntoResult S T E]
    (mkLog : E → LogRecord) (lbl : Option String) (outer : S) : Int :=
  run_outer (or_break mkLog lbl outer).1 2 0

/-- Repeated invocations of a `log_once` call site on the inputs `xs`, in
order, threading the per-call-site latch: yields each invocation's
(outcome, logs-emitted-by-that-invocation) and the final latch value. -/
def run_log_once_seq {S T E X : Type} [IntoResult S T E]
    (mkLog : E → LogRecord) (els : X) :
    Bool → List S → List (BailOutcome T X × List LogRecord) × Bool
  | latch, [] => ([], latch)
  | latch, x :: xs =>
    let r := unwrap_or_log_once mkLog latch x els
    let rest := run_log_once_seq mkLog els r.2 xs
    (r.1 :: rest.1, rest.2)

/-- The crate's cargo feature flags relevant to logging
(src/lib.rs:120-161): two backends and five levels. -/
structure Features where
  log : Bool
  tracing : Bool
  trace : Bool
  debug : Bool
  info : Bool
  warn : Bool
  error : Bool
deriving DecidableEq, Repr

/-- Guard of the first `compile_error!` (src/lib.rs:121):
`all(feature = "log", feature = "tracing")`. -/
def multiple_backends (f : Features) : Bool :=
  f.log && f.tracing

/-- Guard of the second `compile_error!` (src/lib.rs:123-134): `any` over
every pair of distinct level features. -/
def multiple_levels (f : Features) : Bool :=
  (f.trace && f.debug) || (f.trace && f.info) || (f.trace && f.warn) ||
  (f.trace && f.error) || (f.debug && f.info) || (f.debug && f.warn) ||
  (f.debug && f.error) || (f.info && f.warn) || (f.info && f.error) ||
  (f.warn && f.error)

/-- `any(feature = "log", feature = "tracing")`. -/
def any_backend (f : Features) : Bool :=
  f.log || f.tracing

/-- `any(feature = "trace", ..., feature = "error")`. -/
def any_level (f : Features) : Bool :=
  f.trace || f.debug || f.info || f.warn || f.error

/-- Guard of the third `compile_error!` (src/lib.rs:136-145): a backend is
set but no level. -/
def backend_without_level (f : Features) : Bool :=
  any_backend f && !(any_level f)

/-- Guard of the fourth `compile_error!` (src/lib.rs:149-158): a level is
set but no backend. -/
def level_without_backend (f : Features) : Bool :=
  !(any_backend f) && any_level f

/-- Message of the first `compile_error!` (src/lib.rs:122). -/
def msg_multiple_backends : String :=
  "multiple log backend features are set (log, tracing)"

/-- Message of the second `compile_error!` (src/lib.rs:135). -/
def msg_multiple_levels : String :=
  "multiple log level features are set (trace, debug, info, warn, error)"

/-- Message of the third `compile_error!` (src/lib.rs:146-148). -/
def msg_backend_without_level : String :=
  "a log backend feature is set (log, tracing), but no log level feature is set (trace, debug, info, warn, error)"

/-- Message of the fourth `compile_error!` (src/lib.rs:159-161). -/
def msg_level_without_backend : String :=
  "a log level feature is set (trace, debug, info, warn, error), but no log backend feature is set (log, tracing)"

/-- The build errors produced for a feature selection: each tripped
`compile_error!` guard contributes its message (src/lib.rs:120-161). The
build succeeds iff this list is empty. -/
def compile_errors (f : Features) : List String :=
  (if multiple_backends f then [msg_multiple_backends] else []) ++
  (if multiple_levels f then [msg_multiple_levels] else []) ++
  (if backend_without_level f then [msg_backend_without_level] else []) ++
  (if level_without_backend f then [msg_level_without_backend] else [])

/-- Number of level features selected. -/
def level_count (f : Features) : Nat :=
  f.trace.toNat + f.debug.toNat + f.info.toNat + f.warn.toNat + f.error.toNat

/-- Number of backend features selected. -/
def backend_count (f : Features) : Nat :=
  f.log.toNat + f.tracing.toNat

/-- A concrete call-site rendering, used to instantiate log callbacks. -/
def sampleLog : LogRecord :=
  { file := "src/lib.rs", line := 429, column := 24, exprText := "outer", errDebug := "()" }

/-- A concrete log callback for the `bool` shape. -/
def sampleLogBool : Bool → LogRecord :=
  fun _ => sampleLog

/-- C1: for every success-bearing input of the three supported shapes
(`true`, `Some(x)`, `Ok(x)`) and every exit-splicer expansion
(`__unwrap_or!`, `__unwrap_or_quiet!`, `__unwrap_or_log_once!` — hence every
`or_return!`/`or_continue!`/`or_break!` variant, which pass their spliced
exit as `els`), the call site evaluates to the carried payload, emits no
log, leaves the latch unchanged, and performs no exit. -/
theorem c1_success_yields_payload {T E X : Type}
    (mkB : Bool → LogRecord) (mkO : Option Unit → LogRecord) (mkR : E → LogRecord)
    (x : T) (els : X) (sl : Bool) :
    unwrap_or mkB true els = (BailOutcome.value true, []) ∧
    unwrap_or mkO (some x) els = (BailOutcome.value x, []) ∧
    unwrap_or mkR (RResult.ok x : RResult T E) els = (BailOutcome.value x, []) ∧
    unwrap_or_quiet true els = (BailOutcome.value true, []) ∧
    unwrap_or_quiet (some x) els = (BailOutcome.value x, []) ∧
    unwrap_or_quiet (RResult.ok x : RResult T E) els = (BailOutcome.value x, []) ∧
    unwrap_or_log_once mkB sl true els = ((BailOutcome.value true, []), sl) ∧
    unwrap_or_log_once mkO sl (some x) els = ((BailOutcome.value x, []), sl) ∧
    unwrap_or_log_once mkR sl (RResult.ok x : RResult T E) els =
      ((BailOutcome.value x, []), sl) :=
  ⟨rfl, rfl, rfl, rfl, rfl, rfl, rfl, rfl, rfl⟩

/-- C2: for every failure-bearing input of the three supported shapes
(`false`, `None`, `Err(e)`) and every exit-splicer expansion, the call site
performs exactly the one configured exit `els` and never yields a value to
the surrounding expression; the two-armed match has no third branch. -/
theorem c2_failure_performs_exit {T E X : Type}
    (mkB : Bool → LogRecord) (mkO : Option Unit → LogRecord) (mkR : E → LogRecord)
    (e : E) (els : X) (sl : Bool) :
    unwrap_or mkB false els = (BailOutcome.exit els, [mkB false]) ∧
    unwrap_or mkO (none : Option T) els = (BailOutcome.exit els, [mkO none]) ∧
    unwrap_or mkR (RResult.err e : RResult T E) els = (BailOutcome.exit els, [mkR e]) ∧
    unwrap_or_quiet (none : Option T) els = (BailOutcome.exit els, []) ∧
    unwrap_or_quiet (RResult.err e : RResult T E) els = (BailOutcome.exit els, []) ∧
    (unwrap_or_quiet false els : BailOutcome Bool X × List LogRecord) =
      (BailOutcome.exit els, []) ∧
    (unwrap_or_log_once mkB sl false els).1.1 = BailOutcome.exit els ∧
    (unwrap_or_log_once mkO sl (none : Option T) els).1.1 = BailOutcome.exit els ∧
    (unwrap_or_log_once mkR sl (RResult.err e : RResult T E) els).1.1 =
      BailOutcome.exit els :=
  ⟨rfl, rfl, rfl, rfl, rfl, rfl, rfl, rfl, rfl⟩

/-- C3 counterexample: `bool`'s `into_result` does not carry unit values.
The code (src/lib.rs:228-232) is `self.then_some(true).ok_or(false)`: the
success payload is the boolean `true` and the failure detail the boolean
`false`, at type `bool`, which is not the unit type. -/
theorem c3_counterexample :
    (into_result true : RResult Bool Bool) = RResult.ok true ∧
    (into_result false : RResult Bool Bool) = RResult.err false ∧
    Bool ≠ Unit := by
  refine ⟨rfl, rfl, fun h => ?_⟩
  have hsub : Subsingleton Bool := by rw [h]; infer_instance
  exact absurd (@Subsingleton.elim Bool hsub true false) (by decide)

/-- C3 amended: `bool`'s `into_result` maps `true` to `Ok(true)` and `false`
to `Err(false)`: the success payload is the boolean `true` and the failure
detail the boolean `false` (each arm carries a fixed, uninformative value,
but of type `bool`, not unit). -/
theorem c3_bool_normalization_amended (b : Bool) :
    (into_result b : RResult Bool Bool) =
      if b then RResult.ok true else RResult.err false := by
  cases b <;> rfl

/-- C9: the quiet expansion is behaviorally equivalent to the logging one
except for log emission: for every input it produces the same outcome (same
success value, or the same exit), and it emits no log; it never receives
the rendering callback, so the error value is never inspected. -/
theorem c9_quiet_refines_logging {S T E X : Type} [IntoResult S T E]
    (mkLog : E → LogRecord) (expr : S) (els : X) :
    (unwrap_or_quiet expr els : BailOutcome T X × List LogRecord).1 =
      (unwrap_or mkLog expr els).1 ∧
    (unwrap_or_quiet expr els : BailOutcome T X × List LogRecord).2 = [] := by
  rcases h : (into_result expr : RResult T E) with x | e <;>
    simp [unwrap_or_quiet, unwrap_or, h]

/-- C10: `Option`'s normalization round-trips: `into_result(o).ok()`
equals `o`, so normalization loses no information for the optional shape. -/
theorem c10_option_round_trip {T : Type} (o : Option T) :
    okProj (into_result o) = o := by
  cases o <;> rfl

/-- C5: `or_return!` and its quiet and log-once variants, with an explicit
return value `V`: for any failure-bearing input the enclosing routine's
result equals `V`; for any success-bearing input the routine's result is
the rest of the body applied to the payload (execution continues past the
call site) and is unaffected by `V` — the call site's result is identical
for any two values `V`, `V2`, so `V` is never evaluated on that path. -/
theorem c5_return_with_value {S T E R : Type} [IntoResult S T E]
    (mkLog : E → LogRecord) (sFail sOk : S) (e : E) (p : T)
    (hf : into_result sFail = RResult.err e)
    (hs : into_result sOk = RResult.ok p)
    (V V2 : R) (rest : T → R) (sl : Bool) :
    routine_result (or_return mkLog V sFail) rest = V ∧
    routine_result (or_return_quiet V sFail) rest = V ∧
    routine_result (or_return_log_once mkLog sl V sFail).1 rest = V ∧
    routine_result (or_return mkLog V sOk) rest = rest p ∧
    routine_result (or_return_quiet V sOk) rest = rest p ∧
    routine_result (or_return_log_once mkLog sl V sOk).1 rest = rest p ∧
    or_return mkLog V sOk = or_return mkLog V2 sOk ∧
    (or_return_quiet V sOk : BailOutcome T R × List LogRecord) = or_return_quiet V2 sOk ∧
    or_return_log_once mkLog sl V sOk = or_return_log_once mkLog sl V2 sOk := by
  simp [or_return, or_return_quiet, or_return_log_once, unwrap_or, unwrap_or_quiet,
    unwrap_or_log_once, routine_result, hf, hs]

/-- C5 witness: the theorem applied to the `bool` shape at `V = 1`, as in
test `r_with_value` (src/lib.rs:447-464). -/
theorem c5_return_with_value_witness :
    routine_result (or_return sampleLogBool (1 : Int) false) (fun _ : Bool => 2) = 1 ∧
    routine_result (or_return sampleLogBool (1 : Int) true) (fun _ : Bool => 2) = 2 ∧
    or_return sampleLogBool (1 : Int) true = or_return sampleLogBool 7 true :=
  ⟨(c5_return_with_value sampleLogBool false true false true rfl rfl 1 7
      (fun _ => 2) true).1,
   (c5_return_with_value sampleLogBool false true false true rfl rfl 1 7
      (fun _ => 2) true).2.2.2.1,
   (c5_return_with_value sampleLogBool false true false true rfl rfl 1 7
      (fun _ => 2) true).2.2.2.2.2.2.1⟩

/-- C6: `or_return!` and its quiet and log-once variants, without an
explicit return value: for any failure-bearing input the enclosing
routine's result is the return type's default value. -/
theorem c6_return_default {S T E R : Type} [IntoResult S T E] [Inhabited R]
    (mkLog : E → LogRecord) (sFail : S) (e : E)
    (hf : into_result sFail = RResult.err e)
    (rest : T → R) (sl : Bool) :
    routine_result (or_return_default mkLog sFail) rest = (default : R) ∧
    routine_result (or_return_quiet_default sFail) rest = (default : R) ∧
    routine_result (or_return_log_once_default mkLog sl sFail).1 rest = (default : R) := by
  simp [or_return_default, or_return_quiet_default, or_return_log_once_default,
    unwrap_or, unwrap_or_quiet, unwrap_or_log_once, routine_result, hf]

/-- C6 witness: the theorem applied to the `bool` shape with return type
`Int`, whose default value is `0`, as in test `r` (src/lib.rs:427-444). -/
theorem c6_return_default_witness :
    routine_result (or_return_default sampleLogBool false) (fun _ : Bool => (5 : Int)) =
      (default : Int) ∧
    (default : Int) = 0 :=
  ⟨(c6_return_default sampleLogBool false false rfl (fun _ => (5 : Int)) true).1, rfl⟩

/-- C7: the nested-loop counting program of tests `b` and `b_with_label`
(two loops, each two iterations, counter incremented around an `or_break!`
call site): on each failure-bearing shape the unlabeled break leaves the
counter at 6, while the labeled break targeting the outer loop leaves it
at 2. -/
theorem c7_break_counter {T E : Type}
    (mkB : Bool → LogRecord) (mkO : Option Unit → LogRecord) (mkR : E → LogRecord)
    (e : E) :
    b_program mkB none false = 6 ∧
    b_program mkO none (none : Option T) = 6 ∧
    b_program mkR none (RResult.err e : RResult T E) = 6 ∧
    b_program mkB (some "_a") false = 2 ∧
    b_program mkO (some "_a") (none : Option T) = 2 ∧
    b_program mkR (some "_a") (RResult.err e : RResult T E) = 2 :=
  ⟨rfl, rfl, rfl, rfl, rfl, rfl⟩

/-- C8: each invalid feature combination independently trips its own
`compile_error!` guard, failing the build with that guard's message, and
the four messages are pairwise distinct. -/
theorem c8_feature_guards (f : Features) :
    (backend_count f ≥ 2 → msg_multiple_backends ∈ compile_errors f) ∧
    (level_count f ≥ 2 → msg_multiple_levels ∈ compile_errors f) ∧
    (any_level f = true → any_backend f = false →
      msg_level_without_backend ∈ compile_errors f) ∧
    (any_backend f = true → any_level f = false →
      msg_backend_without_level ∈ compile_errors f) ∧
    (msg_multiple_backends ≠ msg_multiple_levels ∧
     msg_multiple_backends ≠ msg_backend_without_level ∧
     msg_multiple_backends ≠ msg_level_without_backend ∧
     msg_multiple_levels ≠ msg_backend_without_level ∧
     msg_multiple_levels ≠ msg_level_without_backend ∧
     msg_backend_without_level ≠ msg_level_without_backend) := by
  rcases f with ⟨l, tg, tr, d, i, w, er⟩
  revert l tg tr d i w er
  decide

/-- C8 witness: the theorem applied to four concrete feature selections,
one per invalid combination. -/
theorem c8_feature_guards_witness :
    msg_multiple_backends ∈ compile_errors ⟨true, true, false, false, false, true, false⟩ ∧
    msg_multiple_levels ∈ compile_errors ⟨true, false, true, true, false, false, false⟩ ∧
    msg_level_without_backend ∈
      compile_errors ⟨false, false, false, false, true, false, false⟩ ∧
    msg_backend_without_level ∈
      compile_errors ⟨true, false, false, false, false, false, false⟩ :=
  ⟨(c8_feature_guards _).1 (by decide),
   (c8_feature_guards _).2.1 (by decide),
   (c8_feature_guards _).2.2.1 (by decide) (by decide),
   (c8_feature_guards _).2.2.2.1 (by decide) (by decide)⟩

/-- Once the latch is `false`, no invocation in a run logs, and the latch
stays `false` for the rest of the run. -/
theorem run_log_once_seq_latch_false {S T E X : Type} [IntoResult S T E]
    (mkLog : E → LogRecord) (els : X) :
    ∀ xs : List S,
      (∀ p ∈ (run_log_once_seq (T := T) mkLog els false xs).1, p.2 = []) ∧
      (run_log_once_seq (T := T) mkLog els false xs).2 = false := by
  intro xs
  induction xs with
  | nil => exact ⟨(by intro p hp; cases hp), rfl⟩
  | cons x rest ih =>
    rcases h : (into_result x : RResult T E) with v | e <;>
      simpa [run_log_once_seq, unwrap_or_log_once, h] using ih

/-- Every failing invocation in a run performs the configured exit,
whatever the latch value. -/
theorem run_log_once_seq_exits {S T E X : Type} [IntoResult S T E]
    (mkLog : E → LogRecord) (els : X) :
    ∀ (latch : Bool) (xs : List S),
      (∀ x ∈ xs, isErr (into_result x : RResult T E) = true) →
      ∀ p ∈ (run_log_once_seq (T := T) mkLog els latch xs).1,
        p.1 = BailOutcome.exit els := by
  intro latch xs
  induction xs generalizing latch with
  | nil => intro _ p hp; cases hp
  | cons x rest ih =>
    intro hfail p hp
    rcases h : (into_result x : RResult T E) with v | e
    · have : isErr (into_result x : RResult T E) = true := hfail x (List.mem_cons_self x rest)
      rw [h] at this
      cases this
    · simp only [run_log_once_seq, unwrap_or_log_once, h, List.mem_cons] at hp
      rcases hp with hp | hp
      · rw [hp]
      · exact ih false (fun y hy => hfail y (List.mem_cons_of_mem x hy)) p hp

/-- C4: for a `log_once` call site, across any nonempty sequence of
failure-bearing invocations starting from the pristine latch, the
diagnostic is emitted exactly once — by the first invocation — the latch
ends tripped, every invocation still performs the configured exit, and
from a tripped latch no invocation ever logs again. -/
theorem c4_log_once_single_log {S T E X : Type} [IntoResult S T E]
    (mkLog : E → LogRecord) (els : X) (xs : List S)
    (hne : xs ≠ [])
    (hfail : ∀ x ∈ xs, isErr (into_result x : RResult T E) = true) :
    (∀ p ∈ (run_log_once_seq (T := T) mkLog els true xs).1,
      p.1 = BailOutcome.exit els) ∧
    ((run_log_once_seq (T := T) mkLog els true xs).1.map fun p => p.2.length).sum = 1 ∧
    (∃ e, (run_log_once_seq (T := T) mkLog els true xs).1.head? =
      some (BailOutcome.exit els, [mkLog e])) ∧
    (run_log_once_seq (T := T) mkLog els true xs).2 = false ∧
    (∀ p ∈ (run_log_once_seq (T := T) mkLog els false xs).1, p.2 = []) := by
  rcases xs with _ | ⟨x, rest⟩
  · exact absurd rfl hne
  obtain ⟨e, he⟩ : ∃ e, (into_result x : RResult T E) = RResult.err e := by
    rcases h : (into_result x : RResult T E) with v | e
    · have : isErr (into_result x : RResult T E) = true :=
        hfail x (List.mem_cons_self x rest)
      rw [h] at this
      cases this
    · exact ⟨e, rfl⟩
  have hrest0 : ∀ p ∈ (run_log_once_seq (T := T) mkLog els false rest).1, p.2 = [] :=
    (run_log_once_seq_latch_false mkLog els rest).1
  refine ⟨run_log_once_seq_exits mkLog els true (x :: rest) hfail, ?_, ⟨e, ?_⟩, ?_,
    (run_log_once_seq_latch_false mkLog els (x :: rest)).1⟩
  · simp only [run_log_once_seq, unwrap_or_log_once, he, if_pos, List.map_cons,
      List.sum_cons, List.length_cons, List.length_nil]
    have : ((run_log_once_seq (T := T) mkLog els false rest).1.map
        fun p => p.2.length).sum = 0 := by
      apply List.sum_eq_zero
      intro n hn
      rcases List.mem_map.1 hn with ⟨p, hp, hnp⟩
      rw [← hnp, hrest0 p hp]
      rfl
    omega
  · simp [run_log_once_seq, unwrap_or_log_once, he]
  · simp only [run_log_once_seq, unwrap_or_log_once, he]
    exact (run_log_once_seq_latch_false mkLog els rest).2

/-- C4 witness: three consecutive failing `bool` invocations of a
`log_once` call site emit one record in total and end with the latch
tripped. -/
theorem c4_log_once_single_log_witness :
    ((run_log_once_seq sampleLogBool (0 : Nat) true
      [false, false, false]).1.map fun p => p.2.length).sum = 1 ∧
    (run_log_once_seq sampleLogBool (0 : Nat) true [false, false, false]).2 = false :=
  ⟨(c4_log_once_single_log sampleLogBool 0 [false, false, false]
      (by decide) (by decide)).2.1,
   (c4_log_once_single_log sampleLogBool 0 [false, false, false]
      (by decide) (by decide)).2.2.2.1⟩

end TinyBail
